import Mathlib

/-!
Verification of the performance scoring and auto-aggregation engine of the
giraffe-kitchens backend (quarterly manager reviews).

The Python code is shallowly embedded: Python floats are modelled as
rationals (ℚ), `None` as `Option.none`, SQLAlchemy rows as structures, the
database session as explicit lists of rows, and raised `HTTPException`s as
an `Except ApiError` result.  `round(x, n)` is modelled as rounding
`x * 10^n` to the nearest integer; the claims settled here never evaluate
rounding at an exact tie, so the tie-break convention is immaterial.
-/

namespace Giraffe

/-- Rounding to two decimal places, the `round(x, 2)` of the source. -/
def round2 (x : ℚ) : ℚ := (round (x * 100) : ℤ) / 100

/-- Rounding to one decimal place, the `round(x, 1)` of the source. -/
def round1 (x : ℚ) : ℚ := (round (x * 10) : ℤ) / 10

/-- `ReviewStatus` enum of `app/models/manager_review.py`. -/
inductive ReviewStatus where
  | draft
  | submitted
  | completed
  deriving DecidableEq, Repr

/-- The `ReviewStatus(str)` enum constructor: `some` on a valid value,
`none` models the `ValueError` raised on any other string. -/
def ReviewStatus.ofString? (s : String) : Option ReviewStatus :=
  if s = "draft" then some .draft
  else if s = "submitted" then some .submitted
  else if s = "completed" then some .completed
  else none

/-- `ReviewQuarter` enum of `app/models/manager_review.py`. -/
inductive ReviewQuarter where
  | Q1
  | Q2
  | Q3
  | Q4
  deriving DecidableEq, Repr

/-- A Python `datetime.date` (year, month, day). -/
structure PyDate where
  year : ℤ
  month : ℕ
  day : ℕ
  deriving DecidableEq, Repr

/-- Python's Gregorian leap-year rule, as used by `datetime.date`. -/
def isLeapYear (y : ℤ) : Bool :=
  (y % 4 == 0 && y % 100 != 0) || (y % 400 == 0)

/-- Number of days in a month of the proleptic Gregorian calendar. -/
def daysInMonth (y : ℤ) (m : ℕ) : ℕ :=
  if m = 2 then (if isLeapYear y then 29 else 28)
  else if m = 4 ∨ m = 6 ∨ m = 9 ∨ m = 11 then 30
  else 31

/-- `d - timedelta(days=1)` on Python dates. -/
def dateSubOneDay (d : PyDate) : PyDate :=
  if d.day > 1 then ⟨d.year, d.month, d.day - 1⟩
  else if d.month > 1 then ⟨d.year, d.month - 1, daysInMonth d.year (d.month - 1)⟩
  else ⟨d.year - 1, 12, 31⟩

/-- Lexicographic key of a date; for in-range dates (month ≤ 12, day ≤ 31)
this orders dates chronologically, matching SQL date comparison. -/
def dateKey (d : PyDate) : ℤ := d.year * 10000 + (d.month : ℤ) * 100 + (d.day : ℤ)

/-- Date comparison `a <= b` used by the range filters. -/
def dateLe (a b : PyDate) : Bool := decide (dateKey a ≤ dateKey b)

/-- `get_quarter_date_range` of `app/api/v1/manager_reviews.py` (lines
216-234): start is the first day of the quarter's first month; the end is
`date(year, 12, 31)` for Q4 and otherwise the first day of the month after
the quarter's last month minus one day. -/
def get_quarter_date_range (year : ℤ) (quarter : ReviewQuarter) :
    PyDate × PyDate :=
  let months : ℕ × ℕ :=
    match quarter with
    | .Q1 => (1, 3)
    | .Q2 => (4, 6)
    | .Q3 => (7, 9)
    | .Q4 => (10, 12)
  let start_date : PyDate := ⟨year, months.1, 1⟩
  let end_date : PyDate :=
    if months.2 = 12 then ⟨year, 12, 31⟩
    else dateSubOneDay ⟨year, months.2 + 1, 1⟩
  (start_date, end_date)

/-- `calculate_category_score` of `app/api/v1/manager_reviews.py` (lines
203-213): keep the `(score, weight)` pairs whose score is populated,
return `None` when none is, otherwise the weighted average rounded to two
decimals (`None` again on the unreachable non-positive total weight). -/
def calculate_category_score (scores : List (Option ℚ)) (weights : List ℚ) :
    Option ℚ :=
  let valid_scores := (scores.zip weights).filterMap
    (fun p => p.1.map (fun s => (s, p.2)))
  if valid_scores = [] then none
  else
    let total_weight := (valid_scores.map Prod.snd).sum
    let weighted_sum := (valid_scores.map (fun p => p.1 * p.2)).sum
    if total_weight > 0 then some (round2 (weighted_sum / total_weight))
    else none

/-- A development goal of the IDP block (`DevelopmentGoal` schema). -/
structure DevelopmentGoal where
  goal : String
  actions : List String
  timeline : String
  support : String
  deriving DecidableEq, Repr

/-- The `ManagerReview` row of `app/models/manager_review.py`.
Timestamps are abstract ticks (ℕ). -/
structure ManagerReview where
  manager_id : Option ℕ
  manager_name : Option String
  branch_id : ℕ
  reviewer_id : ℕ
  year : ℤ
  quarter : ReviewQuarter
  review_date : PyDate
  status : ReviewStatus
  operational_score : Option ℚ
  sanitation_score : Option ℚ
  sanitation_comments : Option String
  inventory_score : Option ℚ
  inventory_comments : Option String
  quality_score : Option ℚ
  quality_comments : Option String
  maintenance_score : Option ℚ
  maintenance_comments : Option String
  people_score : Option ℚ
  recruitment_score : Option ℚ
  recruitment_comments : Option String
  scheduling_score : Option ℚ
  scheduling_comments : Option String
  retention_score : Option ℚ
  retention_comments : Option String
  business_score : Option ℚ
  sales_score : Option ℚ
  sales_comments : Option String
  efficiency_score : Option ℚ
  efficiency_comments : Option String
  leadership_score : Option ℚ
  leadership_comments : Option String
  overall_score : Option ℚ
  auto_sanitation_avg : Option ℚ
  auto_dish_checks_avg : Option ℚ
  auto_sanitation_count : Option ℕ
  auto_dish_checks_count : Option ℕ
  development_goals : List DevelopmentGoal
  next_review_targets : List (String × String)
  ai_analysis : Option String
  ai_summary : Option String
  created_at : ℕ
  updated_at : ℕ
  submitted_at : Option ℕ
  completed_at : Option ℕ
  deriving DecidableEq, Repr

/-- `calculate_weighted_score` of `app/api/v1/manager_reviews.py` (lines
162-200): the four category `if`-blocks append to the parallel
`scores`/`weights` lists (represented here as pairs), `0.0` is returned
when no category score is populated, otherwise the weighted average over
the populated categories rounded to two decimals. -/
def calculate_weighted_score (review : ManagerReview) : ℚ :=
  let pairs : List (ℚ × ℚ) :=
    (match review.operational_score with
     | some s => [(s, 35/100)]
     | none => []) ++
    (match review.people_score with
     | some s => [(s, 30/100)]
     | none => []) ++
    (match review.business_score with
     | some s => [(s, 25/100)]
     | none => []) ++
    (match review.leadership_score with
     | some s => [(s, 10/100)]
     | none => [])
  if pairs = [] then 0
  else
    let total_weight := (pairs.map Prod.snd).sum
    let weighted_sum := (pairs.map (fun p => p.1 * p.2)).sum
    if total_weight > 0 then round2 (weighted_sum / total_weight)
    else 0

/-- The score fields of the `ManagerEvaluation` row used by
`app/api/endpoints/manager_evaluations.py`. -/
structure ManagerEvaluationScores where
  operational_management_score : Option ℚ
  people_management_score : Option ℚ
  business_performance_score : Option ℚ
  leadership_score : Option ℚ
  deriving DecidableEq, Repr

/-- `calculate_total_score` of `app/api/endpoints/manager_evaluations.py`
(lines 39-78): same category weights, but the weights are first divided by
their total and the result is rounded to one decimal. -/
def calculate_total_score (evaluation : ManagerEvaluationScores) : ℚ :=
  let pairs : List (ℚ × ℚ) :=
    (match evaluation.operational_management_score with
     | some s => [(s, 35/100)]
     | none => []) ++
    (match evaluation.people_management_score with
     | some s => [(s, 30/100)]
     | none => []) ++
    (match evaluation.business_performance_score with
     | some s => [(s, 25/100)]
     | none => []) ++
    (match evaluation.leadership_score with
     | some s => [(s, 10/100)]
     | none => [])
  if pairs = [] then 0
  else
    let total_weight := (pairs.map Prod.snd).sum
    if total_weight > 0 then
      let normalized := pairs.map (fun p => (p.1, p.2 / total_weight))
      round1 ((normalized.map (fun p => p.1 * p.2)).sum)
    else 0

/-- The spec's WeightedScoreCalculator contract (§4.2), written from the
spec's words for refinement: the weighted average over only the pairs
whose score is populated, weights renormalized to sum to 1 over that
populated subset, rounded by `rnd`; undefined when no pair is populated. -/
def specWeightedMean (rnd : ℚ → ℚ) (pairs : List (Option ℚ × ℚ)) : Option ℚ :=
  let populated := pairs.filterMap (fun p => p.1.map (fun s => (s, p.2)))
  if populated = [] then none
  else some (rnd ((populated.map (fun p => p.1 * p.2)).sum /
    (populated.map Prod.snd).sum))

/-- `AuditStatus` enum of `app/models/sanitation_audit.py`. -/
inductive AuditStatus where
  | in_progress
  | completed
  | reviewed
  deriving DecidableEq, Repr

/-- The fields of a `SanitationAudit` row used by `fetch_auto_data`. -/
structure SanitationAudit where
  branch_id : ℕ
  audit_date : PyDate
  status : AuditStatus
  total_score : ℚ
  deriving DecidableEq, Repr

/-- The fields of a `DishCheck` row used by `fetch_auto_data`. -/
structure DishCheck where
  branch_id : ℕ
  check_date : PyDate
  rating : ℚ
  deriving DecidableEq, Repr

/-- Result dict of `fetch_auto_data`. -/
structure AutoData where
  auto_sanitation_avg : Option ℚ
  auto_sanitation_count : ℕ
  auto_dish_checks_avg : Option ℚ
  auto_dish_checks_count : ℕ
  deriving DecidableEq, Repr

/-- SQL `AVG` over the listed values: `NULL` on an empty set, otherwise
the arithmetic mean. -/
def sqlAvg (xs : List ℚ) : Option ℚ :=
  if xs = [] then none else some (xs.sum / xs.length)

/-- The `round(float(avg), 2) if avg else None` conversion of
`fetch_auto_data`: Python truthiness maps both `None` and an average of
exactly 0 to `None`. -/
def truthyRound2 (a : Option ℚ) : Option ℚ :=
  match a with
  | none => none
  | some x => if x = 0 then none else some (round2 x)

/-- The sanitation-audit query filter of `fetch_auto_data`: same branch,
audit date inside the resolved range, status completed. -/
def matching_audits (branch_id : ℕ) (year : ℤ) (quarter : ReviewQuarter)
    (audits : List SanitationAudit) : List SanitationAudit :=
  let range := get_quarter_date_range year quarter
  audits.filter (fun a =>
    a.branch_id == branch_id && dateLe range.1 a.audit_date &&
    dateLe a.audit_date range.2 && a.status == AuditStatus.completed)

/-- The dish-check query filter of `fetch_auto_data`: same branch, check
date inside the resolved range. -/
def matching_checks (branch_id : ℕ) (year : ℤ) (quarter : ReviewQuarter)
    (checks : List DishCheck) : List DishCheck :=
  let range := get_quarter_date_range year quarter
  checks.filter (fun c =>
    c.branch_id == branch_id && dateLe range.1 c.check_date &&
    dateLe c.check_date range.2)

/-- `fetch_auto_data` of `app/api/v1/manager_reviews.py` (lines 237-271),
with the database session replaced by the explicit lists of rows it
queries.  `count` of the SQL query is never `NULL`, so `count or 0` is the
number of matching rows. -/
def fetch_auto_data (branch_id : ℕ) (year : ℤ) (quarter : ReviewQuarter)
    (audits : List SanitationAudit) (checks : List DishCheck) : AutoData :=
  let sanitation := matching_audits branch_id year quarter audits
  let dish := matching_checks branch_id year quarter checks
  { auto_sanitation_avg := truthyRound2 (sqlAvg (sanitation.map (·.total_score)))
    auto_sanitation_count := sanitation.length
    auto_dish_checks_avg := truthyRound2 (sqlAvg (dish.map (·.rating)))
    auto_dish_checks_count := dish.length }

/-- HTTP-level failure of a request handler; `http s d` models
`HTTPException(status_code=s, detail=d)`, and an uncaught Python
exception (e.g. `ValueError` from an invalid enum value) surfaces as a
`http 500`. -/
inductive ApiError where
  | http (statusCode : ℕ) (detail : String)
  deriving DecidableEq, Repr

/-- `CreateReviewRequest` of `app/api/v1/manager_reviews.py` (lines
59-93); `status` defaults to the string `"draft"` and may be set by the
caller. -/
structure CreateReviewRequest where
  manager_name : String
  branch_id : ℕ
  year : ℤ
  quarter : ReviewQuarter
  status : Option String := some "draft"
  sanitation_score : Option ℚ := none
  sanitation_comments : Option String := none
  inventory_score : Option ℚ := none
  inventory_comments : Option String := none
  quality_score : Option ℚ := none
  quality_comments : Option String := none
  maintenance_score : Option ℚ := none
  maintenance_comments : Option String := none
  recruitment_score : Option ℚ := none
  recruitment_comments : Option String := none
  scheduling_score : Option ℚ := none
  scheduling_comments : Option String := none
  retention_score : Option ℚ := none
  retention_comments : Option String := none
  sales_score : Option ℚ := none
  sales_comments : Option String := none
  efficiency_score : Option ℚ := none
  efficiency_comments : Option String := none
  leadership_score : Option ℚ := none
  leadership_comments : Option String := none
  ai_summary : Option String := none
  deriving DecidableEq, Repr

/-- `ReviewStatus(request.status) if request.status else ReviewStatus.DRAFT`
of `create_review`: a missing or empty (falsy) status yields draft, a
valid status string is parsed, and any other string raises `ValueError`
(surfaced by the framework as a 500). -/
def parseRequestStatus (s : Option String) : Except ApiError ReviewStatus :=
  match s with
  | none => .ok .draft
  | some str =>
    if str = "" then .ok .draft
    else
      match ReviewStatus.ofString? str with
      | some st => .ok st
      | none => .error (.http 500 ("ValueError: " ++ str ++
          " is not a valid ReviewStatus"))

/-- `create_review` of `app/api/v1/manager_reviews.py` (lines 276-400).
The database is abstracted: `branchExists` is the branch lookup,
`existingReview` the duplicate check for the (manager_name, branch, year,
quarter) tuple, `audits`/`checks` the rows seen by `fetch_auto_data`,
`today` is `date.today()` and `now` the creation tick.  The record is
built with the computed category scores, then `overall_score` is set from
`calculate_weighted_score` on that record. -/
def create_review (req : CreateReviewRequest) (branchExists : Bool)
    (existingReview : Bool) (audits : List SanitationAudit)
    (checks : List DishCheck) (reviewer_id : ℕ) (today : PyDate) (now : ℕ) :
    Except ApiError ManagerReview :=
  if branchExists = false then .error (.http 404 "Branch not found")
  else if existingReview then
    .error (.http 400 "Review already exists for this period")
  else
    match parseRequestStatus req.status with
    | .error e => .error e
    | .ok st =>
      let auto := fetch_auto_data req.branch_id req.year req.quarter audits checks
      let operational_score := calculate_category_score
        [req.sanitation_score, req.inventory_score, req.quality_score,
         req.maintenance_score] [10, 10, 10, 5]
      let people_score := calculate_category_score
        [req.recruitment_score, req.scheduling_score, req.retention_score]
        [10, 10, 10]
      let business_score := calculate_category_score
        [req.sales_score, req.efficiency_score] [15, 10]
      let review : ManagerReview :=
        { manager_id := none
          manager_name := some req.manager_name
          branch_id := req.branch_id
          reviewer_id := reviewer_id
          year := req.year
          quarter := req.quarter
          review_date := today
          status := st
          sanitation_score := req.sanitation_score
          sanitation_comments := req.sanitation_comments
          inventory_score := req.inventory_score
          inventory_comments := req.inventory_comments
          quality_score := req.quality_score
          quality_comments := req.quality_comments
          maintenance_score := req.maintenance_score
          maintenance_comments := req.maintenance_comments
          recruitment_score := req.recruitment_score
          recruitment_comments := req.recruitment_comments
          scheduling_score := req.scheduling_score
          scheduling_comments := req.scheduling_comments
          retention_score := req.retention_score
          retention_comments := req.retention_comments
          sales_score := req.sales_score
          sales_comments := req.sales_comments
          efficiency_score := req.efficiency_score
          efficiency_comments := req.efficiency_comments
          leadership_score := req.leadership_score
          leadership_comments := req.leadership_comments
          operational_score := operational_score
          people_score := people_score
          business_score := business_score
          overall_score := none
          auto_sanitation_avg := auto.auto_sanitation_avg
          auto_dish_checks_avg := auto.auto_dish_checks_avg
          auto_sanitation_count := some auto.auto_sanitation_count
          auto_dish_checks_count := some auto.auto_dish_checks_count
          development_goals := []
          next_review_targets := []
          ai_analysis := none
          ai_summary := req.ai_summary
          created_at := now
          updated_at := now
          submitted_at := none
          completed_at := none }
      .ok { review with overall_score := some (calculate_weighted_score review) }

/-- `ReviewScoreInput` schema: an optional score with optional comments. -/
structure ReviewScoreInput where
  score : Option ℚ := none
  comments : Option String := none
  deriving DecidableEq, Repr

/-- `UpdateReviewRequest` of `app/api/v1/manager_reviews.py` (lines
95-117). -/
structure UpdateReviewRequest where
  sanitation : Option ReviewScoreInput := none
  inventory : Option ReviewScoreInput := none
  quality : Option ReviewScoreInput := none
  maintenance : Option ReviewScoreInput := none
  recruitment : Option ReviewScoreInput := none
  scheduling : Option ReviewScoreInput := none
  retention : Option ReviewScoreInput := none
  sales : Option ReviewScoreInput := none
  efficiency : Option ReviewScoreInput := none
  leadership : Option ReviewScoreInput := none
  development_goals : Option (List DevelopmentGoal) := none
  next_review_targets : Option (List (String × String)) := none
  deriving DecidableEq, Repr

/-- The score field after an `if request.x: review.x_score = request.x.score`
block of `update_review`. -/
def updScore (inp : Option ReviewScoreInput) (old : Option ℚ) : Option ℚ :=
  match inp with
  | some i => i.score
  | none => old

/-- The comments field after the same block. -/
def updComments (inp : Option ReviewScoreInput) (old : Option String) :
    Option String :=
  match inp with
  | some i => i.comments
  | none => old

/-- `update_review` of `app/api/v1/manager_reviews.py` (lines 587-683),
successful path (review found, permission granted).  The handler mutates
the row field by field; each field is assigned at most once and the
category recomputations read the already-updated subcategory fields, so
the sequence of mutations is represented as one simultaneous record
update with the same data dependencies: all three composite category
scores are recomputed unconditionally from the (possibly updated)
subcategory scores, and `overall_score` is then recomputed from the
resulting record.  `development_goals`/`next_review_targets` are only
replaced when the request carries a non-empty (truthy) value. -/
def update_review (req : UpdateReviewRequest) (review : ManagerReview) :
    ManagerReview :=
  let sanitation_score := updScore req.sanitation review.sanitation_score
  let inventory_score := updScore req.inventory review.inventory_score
  let quality_score := updScore req.quality review.quality_score
  let maintenance_score := updScore req.maintenance review.maintenance_score
  let recruitment_score := updScore req.recruitment review.recruitment_score
  let scheduling_score := updScore req.scheduling review.scheduling_score
  let retention_score := updScore req.retention review.retention_score
  let sales_score := updScore req.sales review.sales_score
  let efficiency_score := updScore req.efficiency review.efficiency_score
  let leadership_score := updScore req.leadership review.leadership_score
  let updated : ManagerReview :=
    { review with
      sanitation_score := sanitation_score
      sanitation_comments := updComments req.sanitation review.sanitation_comments
      inventory_score := inventory_score
      inventory_comments := updComments req.inventory review.inventory_comments
      quality_score := quality_score
      quality_comments := updComments req.quality review.quality_comments
      maintenance_score := maintenance_score
      maintenance_comments := updComments req.maintenance review.maintenance_comments
      operational_score := calculate_category_score
        [sanitation_score, inventory_score, quality_score, maintenance_score]
        [10, 10, 10, 5]
      recruitment_score := recruitment_score
      recruitment_comments := updComments req.recruitment review.recruitment_comments
      scheduling_score := scheduling_score
      scheduling_comments := updComments req.scheduling review.scheduling_comments
      retention_score := retention_score
      retention_comments := updComments req.retention review.retention_comments
      people_score := calculate_category_score
        [recruitment_score, scheduling_score, retention_score] [10, 10, 10]
      sales_score := sales_score
      sales_comments := updComments req.sales review.sales_comments
      efficiency_score := efficiency_score
      efficiency_comments := updComments req.efficiency review.efficiency_comments
      business_score := calculate_category_score
        [sales_score, efficiency_score] [15, 10]
      leadership_score := leadership_score
      leadership_comments := updComments req.leadership review.leadership_comments
      development_goals :=
        match req.development_goals with
        | some goals => if goals = [] then review.development_goals else goals
        | none => review.development_goals
      next_review_targets :=
        match req.next_review_targets with
        | some t => if t = [] then review.next_review_targets else t
        | none => review.next_review_targets }
  { updated with overall_score := some (calculate_weighted_score updated) }

/-- `submit_review` of `app/api/v1/manager_reviews.py` (lines 686-710),
acting on the fetched review: rejected unless the status is draft,
otherwise the status becomes submitted and the submission tick is set. -/
def submit_review (review : ManagerReview) (now : ℕ) :
    Except ApiError ManagerReview :=
  if review.status ≠ ReviewStatus.draft then
    .error (.http 400 "Only draft reviews can be submitted")
  else
    .ok { review with status := ReviewStatus.submitted, submitted_at := some now }

/-- `complete_review` of `app/api/v1/manager_reviews.py` (lines 713-737):
rejected unless the status is submitted, otherwise the status becomes
completed and the completion tick is set. -/
def complete_review (review : ManagerReview) (now : ℕ) :
    Except ApiError ManagerReview :=
  if review.status ≠ ReviewStatus.submitted then
    .error (.http 400 "Only submitted reviews can be completed")
  else
    .ok { review with status := ReviewStatus.completed, completed_at := some now }

/-- `delete_review` of `app/api/v1/manager_reviews.py` (lines 740-762):
rejected unless the status is draft, otherwise the row is deleted. -/
def delete_review (review : ManagerReview) : Except ApiError Unit :=
  if review.status ≠ ReviewStatus.draft then
    .error (.http 400 "Only draft reviews can be deleted")
  else
    .ok ()

/-- The category-name weight table `WEIGHTS` of
`calculate_evaluation_score` in `app/api/v1/manager_evaluations.py`
(lines 71-77): תפעול is Operational, ניהול אנשים is People,
ביצועים עסקיים is Business, מנהיגות is Leadership. -/
def WEIGHTS : List (String × ℚ) :=
  [("תפעול", 30/100),
   ("ניהול אנשים", 35/100),
   ("ביצועים עסקיים", 25/100),
   ("מנהיגות", 10/100)]

/-- `WEIGHTS.get(category_name, 0.25)`: the table lookup with the 0.25
fallback default for an unknown category name. -/
def weightsGet (category_name : String) : ℚ :=
  (WEIGHTS.lookup category_name).getD (25/100)

/-- `calculate_evaluation_score` of `app/api/v1/manager_evaluations.py`
(lines 66-96), on the evaluation's category rows as (name, rating) pairs:
`None` when there are no categories, otherwise the weighted average over
all categories with each weight looked up by name (falling back to 0.25),
rounded to two decimals. -/
def calculate_evaluation_score (categories : List (String × ℚ)) : Option ℚ :=
  if categories = [] then none
  else
    let weighted_sum := (categories.map (fun c => c.2 * weightsGet c.1)).sum
    let total_weight := (categories.map (fun c => weightsGet c.1)).sum
    if total_weight > 0 then some (round2 (weighted_sum / total_weight))
    else none

/-- The v1 `ManagerEvaluation` record as used by the narrative pipeline of
`app/api/v1/manager_evaluations.py` (categories are (name, rating) rows). -/
structure ManagerEvaluationV1 where
  manager_name : String
  categories : List (String × ℚ)
  general_comments : Option String
  overall_score : Option ℚ
  ai_summary : Option String
  deriving DecidableEq, Repr

/-- The hardcoded ordered fallback list `models_to_try` of
`app/api/v1/manager_evaluations.py`. -/
def models_to_try : List String :=
  ["claude-3-5-sonnet-latest",
   "claude-3-opus-latest",
   "claude-3-sonnet-20240229",
   "claude-3-haiku-20240307"]

/-- The `for model_name in models_to_try` fallback loop: `call` maps a
model identifier to `some text` when the service call succeeds and `none`
when it raises; the loop returns the output of the first model that
succeeds and `none` when every model fails. -/
def tryModels (call : String → Option String) : List String → Option String
  | [] => none
  | m :: rest =>
    match call m with
    | some text => some text
    | none => tryModels call rest

/-- The explicit `generate_ai_summary` endpoint of
`app/api/v1/manager_evaluations.py` (lines 366-480): missing prompt
template (or an unconfigured API key, folded into `call` failing) is a
500; otherwise the fallback loop runs, `if not ai_summary` (None or empty
string) raises "All Claude models failed" which the outer handler surfaces
as a 500, and on success the summary is persisted on the evaluation. -/
def generate_summary_endpoint (template : Option String)
    (call : String → Option String) (evaluation : ManagerEvaluationV1) :
    Except ApiError ManagerEvaluationV1 :=
  match template with
  | none => .error (.http 500 "Prompt template not found")
  | some t =>
    if t = "" then .error (.http 500 "Prompt template not found")
    else
      match tryModels call models_to_try with
      | none => .error (.http 500
          "Failed to generate AI summary: All Claude models failed")
      | some s =>
        if s = "" then .error (.http 500
            "Failed to generate AI summary: All Claude models failed")
        else .ok { evaluation with ai_summary := some s }

/-- The creation-path helper `generate_ai_summary` of
`app/api/v1/manager_evaluations.py` (lines 99-184), called by
`create_manager_evaluation`: a missing template or unconfigured API key
returns with the evaluation untouched, the fallback loop persists the
first successful output, and when every model fails the function logs and
returns without raising, leaving `ai_summary` unset — evaluation creation
is never failed by it. -/
def generate_ai_summary_on_create (template : Option String)
    (apiKeyConfigured : Bool) (call : String → Option String)
    (evaluation : ManagerEvaluationV1) : ManagerEvaluationV1 :=
  match template with
  | none => evaluation
  | some t =>
    if t = "" then evaluation
    else if apiKeyConfigured = false then evaluation
    else
      match tryModels call models_to_try with
      | some s => { evaluation with ai_summary := some s }
      | none => evaluation

/-! Concrete fixtures used to instantiate the theorems below. -/

/-- A stored review with every optional field unset (fresh draft shell). -/
def blankReview : ManagerReview :=
  { manager_id := none
    manager_name := some "Dana"
    branch_id := 1
    reviewer_id := 1
    year := 2025
    quarter := ReviewQuarter.Q1
    review_date := ⟨2025, 1, 15⟩
    status := ReviewStatus.draft
    operational_score := none
    sanitation_score := none
    sanitation_comments := none
    inventory_score := none
    inventory_comments := none
    quality_score := none
    quality_comments := none
    maintenance_score := none
    maintenance_comments := none
    people_score := none
    recruitment_score := none
    recruitment_comments := none
    scheduling_score := none
    scheduling_comments := none
    retention_score := none
    retention_comments := none
    business_score := none
    sales_score := none
    sales_comments := none
    efficiency_score := none
    efficiency_comments := none
    leadership_score := none
    leadership_comments := none
    overall_score := none
    auto_sanitation_avg := none
    auto_dish_checks_avg := none
    auto_sanitation_count := none
    auto_dish_checks_count := none
    development_goals := []
    next_review_targets := []
    ai_analysis := none
    ai_summary := none
    created_at := 0
    updated_at := 0
    submitted_at := none
    completed_at := none }

/-- The spec's worked example: only Operational = 80 and Leadership = 60
populated. -/
def exampleC1 : ManagerReview :=
  { blankReview with operational_score := some 80, leadership_score := some 60 }

/-- An evaluation record with no category score populated. -/
def blankEvaluation : ManagerEvaluationScores :=
  { operational_management_score := none
    people_management_score := none
    business_performance_score := none
    leadership_score := none }

/-- A creation request carrying no scores (status left at its default). -/
def reqNoScores : CreateReviewRequest :=
  { manager_name := "Dana", branch_id := 1, year := 2025,
    quarter := ReviewQuarter.Q1 }

/-- A creation request whose caller sets `status` to `"submitted"`. -/
def reqSubmittedStatus : CreateReviewRequest :=
  { manager_name := "Dana", branch_id := 1, year := 2025,
    quarter := ReviewQuarter.Q2, status := some "submitted" }

/-- The record produced by `create_review` on `reqSubmittedStatus`. -/
def createdSubmitted : ManagerReview :=
  (create_review reqSubmittedStatus true false [] [] 1 ⟨2025, 4, 2⟩ 0).toOption.getD
    blankReview

/-- A completed sanitation audit whose total score is exactly 0. -/
def zeroScoreAudit : SanitationAudit :=
  { branch_id := 1, audit_date := ⟨2025, 2, 10⟩,
    status := AuditStatus.completed, total_score := 0 }

/-- A stored review already submitted. -/
def submittedReview : ManagerReview :=
  { blankReview with status := ReviewStatus.submitted }

/-- An update request touching nothing. -/
def emptyUpdate : UpdateReviewRequest := {}

/-- A stored review with a single populated subcategory score. -/
def reviewOneScore : ManagerReview :=
  { blankReview with sanitation_score := some 80 }

/-- A service stub for which only the third fallback model succeeds. -/
def callThirdModel : String → Option String :=
  fun m => if m = "claude-3-sonnet-20240229" then some "ניתוח מפורט" else none

/-- A v1 evaluation fixture for the narrative pipeline. -/
def evaluationV1Ex : ManagerEvaluationV1 :=
  { manager_name := "Dana", categories := [("תפעול", 8)],
    general_comments := none, overall_score := some 8, ai_summary := none }

/-! Helper lemmas. -/

/-- Dividing every weight by the total and summing the products equals
dividing the weighted sum by the total. -/
theorem sum_map_weight_div (pairs : List (ℚ × ℚ)) (t : ℚ) :
    ((pairs.map (fun p => (p.1, p.2 / t))).map (fun p => p.1 * p.2)).sum =
      ((pairs.map (fun p => p.1 * p.2)).sum) / t := by
  induction pairs with
  | nil => simp
  | cons p ps ih =>
    simp only [List.map_cons, List.sum_cons, ih, add_div, mul_div_assoc]

/-- `calculate_category_score` realises the spec's weighted-mean contract
whenever every weight is positive. -/
theorem category_score_eq_spec (scores : List (Option ℚ)) (weights : List ℚ)
    (hw : ∀ w ∈ weights, 0 < w) :
    calculate_category_score scores weights =
      specWeightedMean round2 (scores.zip weights) := by
  unfold calculate_category_score specWeightedMean
  by_cases h :
      (scores.zip weights).filterMap (fun p => p.1.map (fun s => (s, p.2))) = []
  · simp [h]
  · have hpos : 0 <
        (((scores.zip weights).filterMap
          (fun p => p.1.map (fun s => (s, p.2)))).map Prod.snd).sum := by
      apply List.sum_pos
      · intro x hx
        obtain ⟨p, hp, rfl⟩ := List.mem_map.1 hx
        obtain ⟨q, hq, hfq⟩ := List.mem_filterMap.1 hp
        obtain ⟨s, hs, rfl⟩ := Option.map_eq_some'.1 hfq
        obtain ⟨q1, q2⟩ := q
        exact hw q2 (List.of_mem_zip hq).2
      · simpa [List.map_eq_nil_iff] using h
    simp [h, hpos]

/-- The weighted-mean contract instantiated at the operational
subcategory weights. -/
theorem category_score_eq_spec_4 (a b c d : Option ℚ) :
    calculate_category_score [a, b, c, d] [10, 10, 10, 5] =
      specWeightedMean round2 [(a, 10), (b, 10), (c, 10), (d, 5)] :=
  category_score_eq_spec [a, b, c, d] [10, 10, 10, 5] (by decide)

/-- The weighted-mean contract instantiated at the people subcategory
weights. -/
theorem category_score_eq_spec_3 (a b c : Option ℚ) :
    calculate_category_score [a, b, c] [10, 10, 10] =
      specWeightedMean round2 [(a, 10), (b, 10), (c, 10)] :=
  category_score_eq_spec [a, b, c] [10, 10, 10] (by decide)

/-- The weighted-mean contract instantiated at the business subcategory
weights. -/
theorem category_score_eq_spec_2 (a b : Option ℚ) :
    calculate_category_score [a, b] [15, 10] =
      specWeightedMean round2 [(a, 15), (b, 10)] :=
  category_score_eq_spec [a, b] [15, 10] (by decide)

/-- `calculate_weighted_score` equals the spec's weighted mean over the
four category pairs, defaulting to 0 when no category is populated. -/
theorem weighted_score_eq_spec (r : ManagerReview) :
    calculate_weighted_score r =
      (specWeightedMean round2
        [(r.operational_score, 35/100), (r.people_score, 30/100),
         (r.business_score, 25/100), (r.leadership_score, 10/100)]).getD 0 := by
  rcases hop : r.operational_score with _ | a <;>
    rcases hpe : r.people_score with _ | b <;>
      rcases hbu : r.business_score with _ | c <;>
        rcases hle : r.leadership_score with _ | d <;>
          simp [calculate_weighted_score, specWeightedMean, hop, hpe, hbu, hle] <;>
            norm_num

/-- `calculate_total_score` equals the spec's weighted mean (rounded to
one decimal) over the four category pairs, defaulting to 0. -/
theorem total_score_eq_spec (e : ManagerEvaluationScores) :
    calculate_total_score e =
      (specWeightedMean round1
        [(e.operational_management_score, 35/100),
         (e.people_management_score, 30/100),
         (e.business_performance_score, 25/100),
         (e.leadership_score, 10/100)]).getD 0 := by
  rcases hop : e.operational_management_score with _ | a <;>
    rcases hpe : e.people_management_score with _ | b <;>
      rcases hbu : e.business_performance_score with _ | c <;>
        rcases hle : e.leadership_score with _ | d <;>
          simp [calculate_total_score, specWeightedMean, hop, hpe, hbu, hle] <;>
            rw [if_pos (by norm_num)] <;> (congr 1 <;> ring)

/-- The spec's weighted mean over four pairs is undefined exactly when
every score is absent. -/
theorem spec4_none_iff (rnd : ℚ → ℚ) (o p b l : Option ℚ)
    (w1 w2 w3 w4 : ℚ) :
    specWeightedMean rnd [(o, w1), (p, w2), (b, w3), (l, w4)] = none ↔
      (o = none ∧ p = none ∧ b = none ∧ l = none) := by
  rcases o <;> rcases p <;> rcases b <;> rcases l <;> simp [specWeightedMean]

/-! Claim theorems. -/

/-- C1: for every evaluation with at least one populated top-level
category score, the computed overall score is the weighted mean of
exactly the populated category scores (weights Operational 0.35, People
0.30, Business 0.25, Leadership 0.10), renormalized over the populated
subset, rounded to at most two decimal places (two in
`calculate_weighted_score`, one in `calculate_total_score`); in
particular, with only Operational = 80 and Leadership = 60 populated the
overall score is (80·0.35 + 60·0.10)/0.45 = 75.56. -/
theorem c1_overall_is_renormalized_weighted_mean :
    (∀ r : ManagerReview,
      (r.operational_score ≠ none ∨ r.people_score ≠ none ∨
        r.business_score ≠ none ∨ r.leadership_score ≠ none) →
      some (calculate_weighted_score r) =
        specWeightedMean round2
          [(r.operational_score, 35/100), (r.people_score, 30/100),
           (r.business_score, 25/100), (r.leadership_score, 10/100)]) ∧
    (∀ e : ManagerEvaluationScores,
      (e.operational_management_score ≠ none ∨
        e.people_management_score ≠ none ∨
        e.business_performance_score ≠ none ∨ e.leadership_score ≠ none) →
      some (calculate_total_score e) =
        specWeightedMean round1
          [(e.operational_management_score, 35/100),
           (e.people_management_score, 30/100),
           (e.business_performance_score, 25/100),
           (e.leadership_score, 10/100)]) ∧
    calculate_weighted_score exampleC1 = 75.56 := by
  refine ⟨?_, ?_, ?_⟩
  · intro r h
    rw [weighted_score_eq_spec r]
    rcases hsp : specWeightedMean round2
        [(r.operational_score, 35/100), (r.people_score, 30/100),
         (r.business_score, 25/100), (r.leadership_score, 10/100)] with _ | v
    · rw [spec4_none_iff] at hsp
      rcases h with h | h | h | h <;> simp [hsp.1, hsp.2.1, hsp.2.2.1, hsp.2.2.2] at h
    · simp
  · intro e h
    rw [total_score_eq_spec e]
    rcases hsp : specWeightedMean round1
        [(e.operational_management_score, 35/100),
         (e.people_management_score, 30/100),
         (e.business_performance_score, 25/100),
         (e.leadership_score, 10/100)] with _ | v
    · rw [spec4_none_iff] at hsp
      rcases h with h | h | h | h <;> simp [hsp.1, hsp.2.1, hsp.2.2.1, hsp.2.2.2] at h
    · simp
  · norm_num [calculate_weighted_score, exampleC1, blankReview, round2,
      round_eq] <;> simp

/-- C1 witness: the theorem applied at the spec's worked example and at
an evaluation with only the business score populated. -/
theorem c1_witness :
    some (calculate_weighted_score exampleC1) =
      specWeightedMean round2
        [(exampleC1.operational_score, 35/100), (exampleC1.people_score, 30/100),
         (exampleC1.business_score, 25/100), (exampleC1.leadership_score, 10/100)] ∧
    some (calculate_total_score
        { blankEvaluation with business_performance_score := some 70 }) =
      specWeightedMean round1
        [(none, 35/100), (none, 30/100), (some 70, 25/100), (none, 10/100)] :=
  ⟨c1_overall_is_renormalized_weighted_mean.1 exampleC1 (Or.inl (by decide)),
   c1_overall_is_renormalized_weighted_mean.2.1
     { blankEvaluation with business_performance_score := some 70 }
     (Or.inr (Or.inr (Or.inl (by decide))))⟩

/-- C2: a category whose subcategory scores are all absent gets an
undefined category score, and an undefined category contributes neither
its score nor its weight to the overall score: with the operational score
absent, the overall equals the renormalized weighted mean of the
remaining three categories alone (so the absence is excluded from the
renormalization, never counted as a zero). -/
theorem c2_empty_category_undefined_and_excluded :
    (∀ (scores : List (Option ℚ)) (weights : List ℚ),
      (∀ s ∈ scores, s = none) →
      calculate_category_score scores weights = none) ∧
    (∀ r : ManagerReview, r.operational_score = none →
      calculate_weighted_score r =
        (specWeightedMean round2
          [(r.people_score, 30/100), (r.business_score, 25/100),
           (r.leadership_score, 10/100)]).getD 0) := by
  constructor
  · intro scores weights h
    unfold calculate_category_score
    have hfm : (scores.zip weights).filterMap
        (fun p => p.1.map (fun s => (s, p.2))) = [] := by
      rw [List.filterMap_eq_nil_iff]
      intro p hp
      obtain ⟨p1, p2⟩ := p
      have := h p1 (List.of_mem_zip hp).1
      simp [this]
    simp [hfm]
  · intro r hop
    rw [weighted_score_eq_spec r]
    simp [specWeightedMean, hop]

/-- C2 witness: the theorem applied at a two-subcategory category with no
populated score and at a review whose operational category is absent. -/
theorem c2_witness :
    calculate_category_score [none, none] [15, 10] = none ∧
    calculate_weighted_score { blankReview with people_score := some 90 } =
      (specWeightedMean round2
        [(some 90, 30/100), (none, 25/100), (none, 10/100)]).getD 0 :=
  ⟨c2_empty_category_undefined_and_excluded.1 [none, none] [15, 10] (by simp),
   c2_empty_category_undefined_and_excluded.2
     { blankReview with people_score := some 90 } rfl⟩

/-- C3 counterexample: the claim says the overall score is undefined when
no category score is populated; creating a review with no scores at all
stores every category score as `none` yet stores the overall score as the
numeric value `some 0` (the scoring routines return `0.0` on empty
input), so the overall score is defined while no category score is. -/
theorem c3_counterexample :
    (create_review reqNoScores true false [] [] 1 ⟨2025, 1, 15⟩ 0).map
        (fun r => (r.operational_score, r.people_score, r.business_score,
          r.leadership_score, r.overall_score)) =
      Except.ok (none, none, none, none, some 0) ∧
    some (0 : ℚ) ≠ (none : Option ℚ) := by
  exact ⟨rfl, by simp⟩

/-- C3 amended: the overall-score computation is total and numeric: when
at least one category score is populated it is the renormalized weighted
mean of the populated categories, and when no category score is populated
both scoring routines return 0 (so a review with no scores stores overall
score 0, not an undefined value). -/
theorem c3_amended_overall_zero_when_unpopulated :
    (∀ r : ManagerReview,
      r.operational_score = none → r.people_score = none →
      r.business_score = none → r.leadership_score = none →
      calculate_weighted_score r = 0) ∧
    (∀ e : ManagerEvaluationScores,
      e.operational_management_score = none →
      e.people_management_score = none →
      e.business_performance_score = none → e.leadership_score = none →
      calculate_total_score e = 0) := by
  constructor
  · intro r h1 h2 h3 h4
    simp [calculate_weighted_score, h1, h2, h3, h4]
  · intro e h1 h2 h3 h4
    simp [calculate_total_score, h1, h2, h3, h4]

/-- C3 witness: the amended theorem applied at the blank review and blank
evaluation. -/
theorem c3_witness :
    calculate_weighted_score blankReview = 0 ∧
    calculate_total_score blankEvaluation = 0 :=
  ⟨c3_amended_overall_zero_when_unpopulated.1 blankReview rfl rfl rfl rfl,
   c3_amended_overall_zero_when_unpopulated.2 blankEvaluation rfl rfl rfl rfl⟩

/-- C4: for every year, the quarter resolver returns the inclusive ranges
Q1 = Jan 1 – Mar 31, Q2 = Apr 1 – Jun 30, Q3 = Jul 1 – Sep 30,
Q4 = Oct 1 – Dec 31, and each end date equals the first day of the month
after the quarter's last month minus one day. -/
theorem c4_quarter_ranges (y : ℤ) :
    get_quarter_date_range y ReviewQuarter.Q1 = (⟨y, 1, 1⟩, ⟨y, 3, 31⟩) ∧
    get_quarter_date_range y ReviewQuarter.Q2 = (⟨y, 4, 1⟩, ⟨y, 6, 30⟩) ∧
    get_quarter_date_range y ReviewQuarter.Q3 = (⟨y, 7, 1⟩, ⟨y, 9, 30⟩) ∧
    get_quarter_date_range y ReviewQuarter.Q4 = (⟨y, 10, 1⟩, ⟨y, 12, 31⟩) ∧
    (get_quarter_date_range y ReviewQuarter.Q1).2 = dateSubOneDay ⟨y, 4, 1⟩ ∧
    (get_quarter_date_range y ReviewQuarter.Q2).2 = dateSubOneDay ⟨y, 7, 1⟩ ∧
    (get_quarter_date_range y ReviewQuarter.Q3).2 = dateSubOneDay ⟨y, 10, 1⟩ ∧
    (get_quarter_date_range y ReviewQuarter.Q4).2 = dateSubOneDay ⟨y + 1, 1, 1⟩ := by
  refine ⟨rfl, rfl, rfl, rfl, rfl, rfl, rfl, ?_⟩
  simp [get_quarter_date_range, dateSubOneDay, PyDate.mk.injEq]

/-- C5: for every branch and period, each metric source of the
auto-metrics aggregation (completed sanitation audits; dish checks)
yields an undefined average together with a count of 0 exactly when there
are zero matching records in the resolved date range, and with one or
more matching records the count is their number and in particular
non-zero — so a consumer can always tell "no data" apart from data whose
true average is 0. -/
theorem c5_no_data_is_undefined_avg_and_zero_count
    (b : ℕ) (y : ℤ) (q : ReviewQuarter)
    (audits : List SanitationAudit) (checks : List DishCheck) :
    ((fetch_auto_data b y q audits checks).auto_sanitation_avg = none ∧
      (fetch_auto_data b y q audits checks).auto_sanitation_count = 0 ↔
      matching_audits b y q audits = []) ∧
    ((fetch_auto_data b y q audits checks).auto_dish_checks_avg = none ∧
      (fetch_auto_data b y q audits checks).auto_dish_checks_count = 0 ↔
      matching_checks b y q checks = []) ∧
    (matching_audits b y q audits ≠ [] →
      (fetch_auto_data b y q audits checks).auto_sanitation_count =
        (matching_audits b y q audits).length ∧
      (fetch_auto_data b y q audits checks).auto_sanitation_count ≠ 0) ∧
    (matching_checks b y q checks ≠ [] →
      (fetch_auto_data b y q audits checks).auto_dish_checks_count =
        (matching_checks b y q checks).length ∧
      (fetch_auto_data b y q audits checks).auto_dish_checks_count ≠ 0) := by
  refine ⟨?_, ?_, ?_, ?_⟩
  · constructor
    · rintro ⟨-, h⟩
      exact List.length_eq_zero.1 h
    · intro h
      simp [fetch_auto_data, h, sqlAvg, truthyRound2]
  · constructor
    · rintro ⟨-, h⟩
      exact List.length_eq_zero.1 h
    · intro h
      simp [fetch_auto_data, h, sqlAvg, truthyRound2]
  · intro h
    exact ⟨rfl, by simpa [fetch_auto_data, List.length_eq_zero] using h⟩
  · intro h
    exact ⟨rfl, by simpa [fetch_auto_data, List.length_eq_zero] using h⟩

/-- C5 witness: the theorem applied with no audit rows (no data: average
undefined, count 0) and with a single completed audit whose score is 0
(count 1, distinguishing a true zero average from no data). -/
theorem c5_witness :
    ((fetch_auto_data 1 2025 ReviewQuarter.Q1 [] []).auto_sanitation_avg = none ∧
      (fetch_auto_data 1 2025 ReviewQuarter.Q1 [] []).auto_sanitation_count = 0) ∧
    (fetch_auto_data 1 2025 ReviewQuarter.Q1 [zeroScoreAudit] []).auto_sanitation_count ≠ 0 :=
  ⟨(c5_no_data_is_undefined_avg_and_zero_count 1 2025 ReviewQuarter.Q1 [] []).1.2 rfl,
   ((c5_no_data_is_undefined_avg_and_zero_count 1 2025 ReviewQuarter.Q1
      [zeroScoreAudit] []).2.2.1 (by decide)).2⟩

/-- C6: a review may be submitted exactly when it is a draft (becoming
submitted with a submission tick), completed exactly when it is submitted
(becoming completed with a completion tick), and deleted exactly when it
is a draft; every other attempted transition or deletion — including any
backward move — is rejected with the conflict rejection
(`HTTPException(400, ...)`) and produces no modified record. -/
theorem c6_lifecycle_transitions (r : ManagerReview) (t : ℕ) :
    ((∃ r', submit_review r t = Except.ok r') ↔ r.status = ReviewStatus.draft) ∧
    (r.status = ReviewStatus.draft →
      submit_review r t = Except.ok
        { r with status := ReviewStatus.submitted, submitted_at := some t }) ∧
    (r.status ≠ ReviewStatus.draft →
      submit_review r t =
        Except.error (.http 400 "Only draft reviews can be submitted")) ∧
    ((∃ r', complete_review r t = Except.ok r') ↔
      r.status = ReviewStatus.submitted) ∧
    (r.status = ReviewStatus.submitted →
      complete_review r t = Except.ok
        { r with status := ReviewStatus.completed, completed_at := some t }) ∧
    (r.status ≠ ReviewStatus.submitted →
      complete_review r t =
        Except.error (.http 400 "Only submitted reviews can be completed")) ∧
    ((delete_review r = Except.ok ()) ↔ r.status = ReviewStatus.draft) ∧
    (r.status ≠ ReviewStatus.draft →
      delete_review r =
        Except.error (.http 400 "Only draft reviews can be deleted")) := by
  refine ⟨?_, ?_, ?_, ?_, ?_, ?_, ?_, ?_⟩ <;>
    by_cases h : r.status = ReviewStatus.draft <;>
      by_cases h2 : r.status = ReviewStatus.submitted <;>
        simp [submit_review, complete_review, delete_review, h, h2]

/-- C6 witness: the theorem applied at a draft review (submit succeeds)
and at a submitted review (backward/auxiliary operations rejected:
re-submit and delete both fail, complete succeeds). -/
theorem c6_witness :
    submit_review blankReview 5 = Except.ok
      { blankReview with status := ReviewStatus.submitted, submitted_at := some 5 } ∧
    submit_review submittedReview 6 =
      Except.error (.http 400 "Only draft reviews can be submitted") ∧
    delete_review submittedReview =
      Except.error (.http 400 "Only draft reviews can be deleted") ∧
    complete_review submittedReview 7 = Except.ok
      { submittedReview with status := ReviewStatus.completed, completed_at := some 7 } :=
  ⟨(c6_lifecycle_transitions blankReview 5).2.1 rfl,
   (c6_lifecycle_transitions submittedReview 6).2.2.1 (by decide),
   (c6_lifecycle_transitions submittedReview 0).2.2.2.2.2.2.2 (by decide),
   (c6_lifecycle_transitions submittedReview 7).2.2.2.2.1 rfl⟩

/-- C7 counterexample: the claim says every record produced by create has
status draft for every input, but `CreateReviewRequest` lets the caller
set `status` ("Allow setting status on creation"): creating with
`status = "submitted"` produces a record whose status is submitted, not
draft. -/
theorem c7_counterexample :
    (create_review reqSubmittedStatus true false [] [] 1 ⟨2025, 4, 2⟩ 0).map
        ManagerReview.status = Except.ok ReviewStatus.submitted ∧
    ReviewStatus.submitted ≠ ReviewStatus.draft :=
  ⟨rfl, by simp⟩

/-- C7 amended: a record produced by create has the status the caller
supplies, parsed from the request's status string (an invalid string
fails the request); it is draft exactly in the default cases — the status
field omitted, null, empty, or the string "draft". -/
theorem c7_amended_create_status_follows_request
    (req : CreateReviewRequest) (bex exi : Bool)
    (audits : List SanitationAudit) (checks : List DishCheck)
    (rid : ℕ) (today : PyDate) (now : ℕ) (r : ManagerReview)
    (h : create_review req bex exi audits checks rid today now = Except.ok r) :
    r.status =
      (match req.status with
       | none => ReviewStatus.draft
       | some s =>
         if s = "" then ReviewStatus.draft
         else (ReviewStatus.ofString? s).getD ReviewStatus.draft) := by
  unfold create_review at h
  rcases bex with _ | _
  · simp at h
  · rcases exi with _ | _
    · simp only [Bool.true_eq_false, if_false, if_neg] at h
      rcases hst : req.status with _ | s
      · simp [parseRequestStatus, hst] at h
        rw [← h]
      · by_cases hse : s = ""
        · simp [parseRequestStatus, hst, hse] at h
          rw [← h]
          simp [hse]
        · rcases hos : ReviewStatus.ofString? s with _ | st
          · simp [parseRequestStatus, hst, hse, hos] at h
          · simp [parseRequestStatus, hst, hse, hos] at h
            rw [← h]
            simp [hse, hos]
    · simp at h

/-- C7 witness: the amended theorem applied at the concrete request that
sets status to "submitted". -/
theorem c7_witness : createdSubmitted.status = ReviewStatus.submitted :=
  c7_amended_create_status_follows_request reqSubmittedStatus true false
    [] [] 1 ⟨2025, 4, 2⟩ 0 createdSubmitted rfl

/-- C8, code_bug evidence: the claim (and the docstrings of the two
sibling scoring routines, which both use Operational 0.35 / People 0.30)
says every scoring routine weights Operational 35% and People 30%, but
the name-keyed weight table of `calculate_evaluation_score` assigns
תפעול (Operational) 0.30 and ניהול אנשים (People) 0.35 — swapped; on a
review scored only in Operational = 80 and Leadership = 60 it therefore
produces 75 where the documented weights give 75.56.  The fallback half
of the claim does hold: an unknown category name gets the default weight
0.25 instead of being rejected. -/
theorem c8_weight_table_swapped :
    weightsGet "תפעול" = 30/100 ∧
    weightsGet "ניהול אנשים" = 35/100 ∧
    (30/100 : ℚ) ≠ 35/100 ∧
    weightsGet "קטגוריה עתידית" = 25/100 ∧
    calculate_evaluation_score [("תפעול", 80), ("מנהיגות", 60)] = some 75 ∧
    specWeightedMean round2 [(some 80, 35/100), (some 60, 10/100)] =
      some 75.56 := by
  have hOp : weightsGet "תפעול" = 30/100 := rfl
  have hLd : weightsGet "מנהיגות" = 10/100 := rfl
  refine ⟨rfl, rfl, by norm_num, rfl, ?_, ?_⟩
  · have hne : ([("תפעול", 80), ("מנהיגות", 60)] : List (String × ℚ)) ≠ [] := by
      simp
    simp only [calculate_evaluation_score, if_neg hne, List.map_cons,
      List.map_nil, List.sum_cons, List.sum_nil, hOp, hLd]
    rw [if_pos (by norm_num)]
    norm_num [round2, round_eq]
  · norm_num [specWeightedMean, round2, round_eq, List.filterMap_cons,
      List.filterMap_nil] <;> simp

/-- C9: narrative generation walks the hardcoded model list in order and
returns the first success — with the first two models failing and the
third succeeding, the third model's (non-empty) output is returned and
the earlier failures are not surfaced; when every model fails, the
explicit generate endpoint surfaces a 500 error, while the
generate-on-creation helper returns the evaluation unchanged (narrative
unset) without failing creation. -/
theorem c9_model_fallback :
    (∀ (call : String → Option String) (e : ManagerEvaluationV1)
        (t s : String), t ≠ "" → s ≠ "" →
      call "claude-3-5-sonnet-latest" = none →
      call "claude-3-opus-latest" = none →
      call "claude-3-sonnet-20240229" = some s →
      generate_summary_endpoint (some t) call e =
        Except.ok { e with ai_summary := some s }) ∧
    (∀ (call : String → Option String) (e : ManagerEvaluationV1)
        (t : String), t ≠ "" →
      (∀ m ∈ models_to_try, call m = none) →
      generate_summary_endpoint (some t) call e =
        Except.error (.http 500
          "Failed to generate AI summary: All Claude models failed")) ∧
    (∀ (template : Option String) (apiKey : Bool)
        (call : String → Option String) (e : ManagerEvaluationV1),
      (∀ m ∈ models_to_try, call m = none) →
      generate_ai_summary_on_create template apiKey call e = e) := by
  refine ⟨?_, ?_, ?_⟩
  · intro call e t s ht hs h1 h2 h3
    simp [generate_summary_endpoint, models_to_try, tryModels, ht, hs,
      h1, h2, h3]
  · intro call e t ht hall
    have h1 := hall "claude-3-5-sonnet-latest" (by simp [models_to_try])
    have h2 := hall "claude-3-opus-latest" (by simp [models_to_try])
    have h3 := hall "claude-3-sonnet-20240229" (by simp [models_to_try])
    have h4 := hall "claude-3-haiku-20240307" (by simp [models_to_try])
    simp [generate_summary_endpoint, models_to_try, tryModels, ht,
      h1, h2, h3, h4]
  · intro template apiKey call e hall
    have h1 := hall "claude-3-5-sonnet-latest" (by simp [models_to_try])
    have h2 := hall "claude-3-opus-latest" (by simp [models_to_try])
    have h3 := hall "claude-3-sonnet-20240229" (by simp [models_to_try])
    have h4 := hall "claude-3-haiku-20240307" (by simp [models_to_try])
    rcases template with _ | t
    · rfl
    · by_cases ht : t = "" <;> rcases apiKey with _ | _ <;>
        simp [generate_ai_summary_on_create, models_to_try, tryModels, ht,
          h1, h2, h3, h4]

/-- C9 witness: the theorem applied to a stub service for which only the
third model succeeds, and to a service for which every model fails. -/
theorem c9_witness :
    generate_summary_endpoint (some "TPL") callThirdModel evaluationV1Ex =
      Except.ok { evaluationV1Ex with ai_summary := some "ניתוח מפורט" } ∧
    generate_summary_endpoint (some "TPL") (fun _ => none) evaluationV1Ex =
      Except.error (.http 500
        "Failed to generate AI summary: All Claude models failed") ∧
    generate_ai_summary_on_create (some "TPL") true (fun _ => none)
      evaluationV1Ex = evaluationV1Ex :=
  ⟨c9_model_fallback.1 callThirdModel evaluationV1Ex "TPL" "ניתוח מפורט"
     (by simp) (by simp) rfl rfl rfl,
   c9_model_fallback.2.1 (fun _ => none) evaluationV1Ex "TPL" (by simp)
     (fun m hm => rfl),
   c9_model_fallback.2.2 (some "TPL") true (fun _ => none) evaluationV1Ex
     (fun m hm => rfl)⟩

/-- C10 counterexample: the claim says after every successful update the
stored overall score equals the renormalized weighted combination of the
resulting category scores, but updating a review with no populated
scores succeeds and stores overall score 0 while that combination is
undefined (no category score is populated). -/
theorem c10_counterexample :
    (update_review emptyUpdate blankReview).overall_score = some 0 ∧
    specWeightedMean round2
      [((update_review emptyUpdate blankReview).operational_score, 35/100),
       ((update_review emptyUpdate blankReview).people_score, 30/100),
       ((update_review emptyUpdate blankReview).business_score, 25/100),
       ((update_review emptyUpdate blankReview).leadership_score, 10/100)] =
      none :=
  ⟨rfl, rfl⟩

/-- C10 amended: after every successful update — whatever subset of
fields the request mentions — the stored operational, people and business
category scores equal the renormalized weighted mean of the stored
subcategory scores (weights 10/10/10/5, 10/10/10 and 15/10), and the
stored overall score equals the renormalized weighted combination of the
resulting category scores whenever at least one of them is populated,
and the numeric value 0 otherwise; derived scores are recomputed from the
stored subcategory values on every update and can never go stale. -/
theorem c10_update_recomputes_derived_scores
    (req : UpdateReviewRequest) (r : ManagerReview) :
    (update_review req r).operational_score =
      specWeightedMean round2
        [((update_review req r).sanitation_score, 10),
         ((update_review req r).inventory_score, 10),
         ((update_review req r).quality_score, 10),
         ((update_review req r).maintenance_score, 5)] ∧
    (update_review req r).people_score =
      specWeightedMean round2
        [((update_review req r).recruitment_score, 10),
         ((update_review req r).scheduling_score, 10),
         ((update_review req r).retention_score, 10)] ∧
    (update_review req r).business_score =
      specWeightedMean round2
        [((update_review req r).sales_score, 15),
         ((update_review req r).efficiency_score, 10)] ∧
    (((update_review req r).operational_score ≠ none ∨
        (update_review req r).people_score ≠ none ∨
        (update_review req r).business_score ≠ none ∨
        (update_review req r).leadership_score ≠ none) →
      (update_review req r).overall_score =
        specWeightedMean round2
          [((update_review req r).operational_score, 35/100),
           ((update_review req r).people_score, 30/100),
           ((update_review req r).business_score, 25/100),
           ((update_review req r).leadership_score, 10/100)]) ∧
    (((update_review req r).operational_score = none ∧
        (update_review req r).people_score = none ∧
        (update_review req r).business_score = none ∧
        (update_review req r).leadership_score = none) →
      (update_review req r).overall_score = some 0) := by
  have hov : (update_review req r).overall_score =
      some (calculate_weighted_score (update_review req r)) := rfl
  refine ⟨category_score_eq_spec_4 _ _ _ _, category_score_eq_spec_3 _ _ _,
    category_score_eq_spec_2 _ _, ?_, ?_⟩
  · intro h
    rw [hov, weighted_score_eq_spec]
    rcases hsp : specWeightedMean round2
        [((update_review req r).operational_score, 35/100),
         ((update_review req r).people_score, 30/100),
         ((update_review req r).business_score, 25/100),
         ((update_review req r).leadership_score, 10/100)] with _ | v
    · rw [spec4_none_iff] at hsp
      rcases h with h | h | h | h <;>
        simp [hsp.1, hsp.2.1, hsp.2.2.1, hsp.2.2.2] at h
    · simp
  · rintro ⟨h1, h2, h3, h4⟩
    rw [hov, weighted_score_eq_spec]
    simp [specWeightedMean, h1, h2, h3, h4]

/-- C10 witness: the amended theorem applied at an empty update of a
review with one populated subcategory score: the untouched category and
the overall score are still recomputed. -/
theorem c10_witness :
    (update_review emptyUpdate reviewOneScore).overall_score =
      specWeightedMean round2
        [((update_review emptyUpdate reviewOneScore).operational_score, 35/100),
         ((update_review emptyUpdate reviewOneScore).people_score, 30/100),
         ((update_review emptyUpdate reviewOneScore).business_score, 25/100),
         ((update_review emptyUpdate reviewOneScore).leadership_score, 10/100)] :=
  (c10_update_recomputes_derived_scores emptyUpdate reviewOneScore).2.2.2.1
    (Or.inl (by norm_num [show (update_review emptyUpdate reviewOneScore).operational_score =
        calculate_category_score [some 80, none, none, none] [10, 10, 10, 5] from rfl,
      calculate_category_score, List.filterMap_cons, List.filterMap_nil] <;> simp))

end Giraffe
